import Mathlib

/-!
Shallow embedding of `bridge_server.py` (Brother VC-500W bridge server).

Python `str` values are modelled as `List Char`, Python `bytes` as
`List Nat` (one `Nat` per byte), Python `float` as `ℚ` (exact arithmetic;
at every concrete input used below the Python double computation was
checked to agree with the exact rational value), and Python exceptions as
`Except String`.
-/

/-- One byte of a Python `bytes` object. -/
abbrev Byte := Nat

/-- Position of the first occurrence of `sep` in `xs` (Python `find` on a
nonempty separator), `none` when `sep` does not occur. -/
def findSub [BEq α] (sep : List α) : List α → Option Nat
  | [] => none
  | x :: xs =>
    if List.isPrefixOf sep (x :: xs) then some 0
    else (findSub sep xs).map (· + 1)

/-- Python `sep in s` (substring containment). -/
def strContains [BEq α] (sep xs : List α) : Bool :=
  (findSub sep xs).isSome

/-- Fuelled worker for `pySplit`.  For a nonempty separator every step
consumes at least one element of the list, so fuel `xs.length + 1` is
always sufficient and the fuel never runs out in `pySplit`. -/
def pySplitAux [BEq α] (sep : List α) : Nat → List α → List (List α)
  | 0, xs => [xs]
  | fuel + 1, xs =>
    match findSub sep xs with
    | none => [xs]
    | some i => xs.take i :: pySplitAux sep fuel (xs.drop (i + sep.length))

/-- Python `s.split(sep)` for a nonempty separator: split on every
left-to-right non-overlapping occurrence. -/
def pySplit [BEq α] (sep xs : List α) : List (List α) :=
  pySplitAux sep (xs.length + 1) xs

/-- Python list indexing `l[i]`, `none` on `IndexError`. -/
def listIdx (l : List α) (i : Nat) : Option α :=
  (l.drop i).head?

/-- The six ASCII whitespace characters stripped by Python `str.strip()`
(the source only ever strips ASCII header text, so the further Unicode
spaces Python would also strip are irrelevant here). -/
def isPySpaceChar (c : Char) : Bool :=
  c = ' ' || c = '\t' || c = '\n' || c = '\r' || c = '\x0b' || c = '\x0c'

/-- Python `str.strip()` on ASCII text. -/
def pyStripStr (s : List Char) : List Char :=
  ((s.dropWhile isPySpaceChar).reverse.dropWhile isPySpaceChar).reverse

/-- The byte values stripped by Python `bytes.strip()`. -/
def isPySpaceByte (b : Byte) : Bool :=
  b = 32 || b = 9 || b = 10 || b = 13 || b = 11 || b = 12

/-- Python `content.rstrip(b'\r\n')`: removes ALL trailing bytes that are
CR (13) or LF (10) — `rstrip` treats its argument as a set of byte values,
not as a suffix string. -/
def pyRstripCRLF (xs : List Byte) : List Byte :=
  (xs.reverse.dropWhile (fun b => b = 13 || b = 10)).reverse

/-- ASCII lowercasing, modelling Python `str.lower()` on the ASCII header
text the source applies it to. -/
def asciiLower (c : Char) : Char :=
  if 'A' ≤ c ∧ c ≤ 'Z' then Char.ofNat (c.toNat + 32) else c

/-- Continuation-byte range check for the UTF-8 decoder. -/
def isCont (lo hi c : Byte) : Bool :=
  lo ≤ c && c ≤ hi

/-- Fuelled worker for `utf8Ignore`; every step consumes at least one
byte, so fuel equal to the length of the input never runs out. -/
def utf8IgnoreAux : Nat → List Byte → List Char
  | 0, _ => []
  | _, [] => []
  | fuel + 1, b :: rest =>
    if b ≤ 0x7F then Char.ofNat b :: utf8IgnoreAux fuel rest
    else if 0xC2 ≤ b && b ≤ 0xDF then
      match rest with
      | [] => []
      | c1 :: r1 =>
        if isCont 0x80 0xBF c1 then
          Char.ofNat ((b % 32) * 64 + c1 % 64) :: utf8IgnoreAux fuel r1
        else utf8IgnoreAux fuel rest
    else if 0xE0 ≤ b && b ≤ 0xEF then
      match rest with
      | [] => []
      | c1 :: r1 =>
        if isCont (if b = 0xE0 then 0xA0 else 0x80) (if b = 0xED then 0x9F else 0xBF) c1 then
          match r1 with
          | [] => []
          | c2 :: r2 =>
            if isCont 0x80 0xBF c2 then
              Char.ofNat ((b % 16) * 4096 + (c1 % 64) * 64 + c2 % 64) :: utf8IgnoreAux fuel r2
            else utf8IgnoreAux fuel r1
        else utf8IgnoreAux fuel rest
    else if 0xF0 ≤ b && b ≤ 0xF4 then
      match rest with
      | [] => []
      | c1 :: r1 =>
        if isCont (if b = 0xF0 then 0x90 else 0x80) (if b = 0xF4 then 0x8F else 0xBF) c1 then
          match r1 with
          | [] => []
          | c2 :: r2 =>
            if isCont 0x80 0xBF c2 then
              match r2 with
              | [] => []
              | c3 :: r3 =>
                if isCont 0x80 0xBF c3 then
                  Char.ofNat ((b % 8) * 262144 + (c1 % 64) * 4096 + (c2 % 64) * 64 + c3 % 64) ::
                    utf8IgnoreAux fuel r3
                else utf8IgnoreAux fuel r2
            else utf8IgnoreAux fuel r1
        else utf8IgnoreAux fuel rest
    else utf8IgnoreAux fuel rest

/-- Python `bytes.decode('utf-8', errors='ignore')`: decode UTF-8,
dropping each maximal invalid subpart instead of raising. -/
def utf8Ignore (xs : List Byte) : List Char :=
  utf8IgnoreAux xs.length xs


/-- UTF-8 encoding of one character (Python `str.encode()`). -/
def utf8EncodeChar (c : Char) : List Byte :=
  let n := c.toNat
  if n ≤ 0x7F then [n]
  else if n ≤ 0x7FF then [0xC0 + n / 64, 0x80 + n % 64]
  else if n ≤ 0xFFFF then [0xE0 + n / 4096, 0x80 + n / 64 % 64, 0x80 + n % 64]
  else [0xF0 + n / 262144, 0x80 + n / 4096 % 64, 0x80 + n / 64 % 64, 0x80 + n % 64]

/-- Python `str.encode()` on a whole string. -/
def utf8Encode (s : List Char) : List Byte :=
  s.foldr (fun c acc => utf8EncodeChar c ++ acc) []

/-- Bytes of an ASCII string, used to build concrete request bodies. -/
def asciiBytes (s : List Char) : List Byte :=
  s.map Char.toNat

/-- Python `dict` assignment `d[k] = v`: overwrite in place, else append. -/
def pyDictSet [DecidableEq κ] (d : List (κ × α)) (k : κ) (v : α) : List (κ × α) :=
  if d.any (fun p => p.1 = k) then
    d.map (fun p => if p.1 = k then (k, v) else p)
  else d ++ [(k, v)]

/-- Python `dict` lookup `d.get(k)`. -/
def pyDictGet [DecidableEq κ] (d : List (κ × α)) (k : κ) : Option α :=
  (d.find? (fun p => p.1 = k)).map (·.2)

/-- A decoded file part: `{'filename': ..., 'content': ...}`. -/
structure FilePart where
  filename : List Char
  content : List Byte
  deriving DecidableEq

/-- The pair `(form_data, files)` returned by `parse_multipart_form_data`. -/
structure DecodedForm where
  formData : List (List Char × List Char)
  files : List (List Char × FilePart)
  deriving DecidableEq

/-- The `b'\r\n\r\n'` separator between a part's headers and its content. -/
def crlfcrlf : List Byte := [13, 10, 13, 10]

/-- Lines 46-49: split a part at the first `b'\r\n\r\n'` into header block
and content block; a part without the separator is skipped. -/
def splitHeadersContent (part : List Byte) : Option (List Byte × List Byte) :=
  match findSub crlfcrlf part with
  | none => none
  | some i => some (part.take i, part.drop (i + 4))

/-- Lines 59-62 and 63-66: `start = line.find(marker) + len(marker);
end = line.find('"', start); line[start:end]` — `none` when the marker is
absent; when no closing quote follows, Python's `end = -1` makes the slice
`line[start:-1]`. -/
def extractAttr (marker line : List Char) : Option (List Char) :=
  match findSub marker line with
  | none => none
  | some i =>
    let start := i + marker.length
    match findSub ['"'] (line.drop start) with
    | some j => some ((line.drop start).take j)
    | none => some ((line.take (line.length - 1)).drop start)

/-- The `'name="'` marker searched for on a Content-Disposition line. -/
def nameMarker : List Char := "name=\"".toList

/-- The `'filename="'` marker searched for on a Content-Disposition line. -/
def filenameMarker : List Char := "filename=\"".toList

/-- The header-name tested case-insensitively at line 57. -/
def contentDispositionMarker : List Char := "content-disposition:".toList

/-- Lines 56-66: one step of the loop over header lines, carrying the
`(name, filename)` pair; each is overwritten only when its marker occurs
on a Content-Disposition line. -/
def dispositionStep (acc : Option (List Char) × Option (List Char)) (line : List Char) :
    Option (List Char) × Option (List Char) :=
  if List.isPrefixOf contentDispositionMarker (line.map asciiLower) then
    (match extractAttr nameMarker line with
      | some v => some v
      | none => acc.1,
     match extractAttr filenameMarker line with
      | some v => some v
      | none => acc.2)
  else acc

/-- Lines 54-66: `name`/`filename` extraction from the decoded header
text, iterating over its `'\r\n'`-split lines. -/
def extractNameFilename (headersText : List Char) : Option (List Char) × Option (List Char) :=
  (pySplit ['\r', '\n'] headersText).foldl dispositionStep (none, none)

/-- Lines 42-80: processing of one candidate part, accumulating into the
`(form_data, files)` dictionaries.  `if name:` and `if filename:` are
Python truthiness tests: `None` and the empty string are both falsy. -/
def processPart (acc : DecodedForm) (part : List Byte) : DecodedForm :=
  if part.all isPySpaceByte then acc
  else
    match splitHeadersContent part with
    | none => acc
    | some (hd, content0) =>
      match extractNameFilename (utf8Ignore hd) with
      | (none, _) => acc
      | (some name, fn?) =>
        if name = [] then acc
        else
          let content := pyRstripCRLF content0
          if fn?.getD [] = [] then
            { acc with formData := pyDictSet acc.formData name (utf8Ignore content) }
          else
            { acc with files := pyDictSet acc.files name ⟨fn?.getD [], content⟩ }

/-- The `'boundary='` marker tested at line 29. -/
def boundaryMarker : List Char := "boundary=".toList

/-- Lines 32-34: the boundary is stripped and unquoted. -/
def normBoundary (seg : List Char) : List Char :=
  let b := pyStripStr seg
  if b.head? = some '"' ∧ b.getLast? = some '"' then (b.drop 1).dropLast else b

/-- Lines 36-82: split the body on `--boundary` and fold the middle
segments (`parts[1:-1]`) through `processPart`. -/
def decodeFormWith (boundary : List Char) (body : List Byte) : DecodedForm :=
  let delim := utf8Encode ('-' :: '-' :: boundary)
  let parts := pySplit delim body
  ((parts.drop 1).dropLast).foldl processPart ⟨[], []⟩

/-- Lines 26-82, `parse_multipart_form_data(content_type, body)`.  The
only `raise` is the missing-boundary `ValueError`; the list index
`split('boundary=')[1]` could raise `IndexError`, modelled by the second
error branch, which the no-crash theorem below shows unreachable.  All
remaining operations are total. -/
def parse_multipart_form_data (content_type : List Char) (body : List Byte) :
    Except String DecodedForm :=
  if ¬ strContains boundaryMarker content_type then
    Except.error "No boundary found in content type"
  else
    match listIdx (pySplit boundaryMarker content_type) 1 with
    | none => Except.error "IndexError"
    | some seg => Except.ok (decodeFormWith (normBoundary seg) body)

/-- Python `int(x)` on a float/rational: truncation toward zero. -/
def pyInt (q : ℚ) : Int :=
  if 0 ≤ q then ⌊q⌋ else -⌊-q⌋

/-- `PrinterConfiguration` as consumed by the handlers (the labelprinter
device module is an external collaborator; these are the fields read by
the bridge). -/
structure Configuration where
  model : String
  serial : String
  tape_width : ℚ
  tape_length_initial : ℚ
  deriving DecidableEq

/-- `PrinterStatus` as consumed by the handlers. -/
structure PStatus where
  print_state : String
  print_job_stage : String
  print_job_error : String
  tape_length_remaining : ℚ
  deriving DecidableEq

/-- The derived `tape_info` dictionary. -/
structure TapeInfo where
  present : Bool
  type_mm : Int
  total_mm : Int
  remaining_mm : Int
  percentage : Int
  deriving DecidableEq

/-- Lines 149-162: the tape-information projection.  The Python guard
`if config.tape_width and config.tape_length_initial and
status.tape_length_remaining != -1.0` tests truthiness, i.e. the two
floats being nonzero, and the remaining length differing from the
sentinel. -/
def computeTapeInfo (config : Configuration) (status : PStatus) : TapeInfo :=
  if config.tape_width ≠ 0 ∧ config.tape_length_initial ≠ 0 ∧
      status.tape_length_remaining ≠ -1 then
    let type_mm := pyInt (config.tape_width * 25.4)
    let total_mm := pyInt (config.tape_length_initial * 25.4)
    let remaining_mm := pyInt (status.tape_length_remaining * 25.4)
    let percentage :=
      if 0 < total_mm then pyInt ((remaining_mm : ℚ) / (total_mm : ℚ) * 100) else 0
    ⟨true, type_mm, total_mm, remaining_mm, percentage⟩
  else
    ⟨false, 0, 0, 0, 0⟩

/-- The device operations a handler attempts, in order, including the
arguments it passes; used to state which cleanup actions run on which
exit paths.  `connect` carries the printer address, `printJpeg` the image
bytes and the mode/cut parameters, `tempWrite` the bytes written to the
temporary file. -/
inductive Event where
  | connect (ip : List Char)
  | getConfiguration
  | getStatus
  | printJpeg (image : List Byte) (mode cut : List Char)
  | close
  | tempWrite (image : List Byte)
  | unlink
  deriving DecidableEq

deriving instance DecidableEq for Except

/-- The outcome of one device operation: `Except.error` models the Python
call raising. -/
abbrev DevResult (α : Type) := Except String α

/-- Whether an operation outcome is a non-raising one. -/
def devOk : DevResult α → Bool
  | Except.ok _ => true
  | Except.error _ => false

/-- The environment of one `queryStatus` request: the outcome of each
device call the handler may perform (each is performed at most once). -/
structure StatusDevice where
  connect : DevResult Unit
  getConfiguration : DevResult Configuration
  getStatus : DevResult PStatus
  close : DevResult Unit
  deriving DecidableEq

/-- The environment of one `submitPrintJob` request. -/
structure PrintDevice where
  connect : DevResult Unit
  getStatus : DevResult PStatus
  printJpeg : DevResult Unit
  close : DevResult Unit
  deriving DecidableEq

/-- The JSON body written by `handle_printer_status_request`: either the
success envelope or the 500 error envelope (whose `tape` object is the
all-zero `TapeInfo`). -/
inductive StatusResponse where
  | ok (model serial state jobStage jobError : String) (tape : TapeInfo)
  | err (msg : String) (tape : TapeInfo)
  deriving DecidableEq

/-- Whether a status response is the error envelope. -/
def StatusResponse.isErr : StatusResponse → Bool
  | StatusResponse.ok _ _ _ _ _ _ => false
  | StatusResponse.err _ _ => true

/-- The default printer address `192.168.178.120`. -/
def defaultIp : List Char := "192.168.178.120".toList

/-- The all-zero tape object of the error envelope (lines 195-201). -/
def zeroTape : TapeInfo := ⟨false, 0, 0, 0, 0⟩

/-- Lines 128-203, `handle_printer_status_request`.  `ip?` is the `ip`
query parameter when present.  Returns the response together with the
list of device operations attempted.  Every failing call raises, is
caught by the outermost `except`, and yields the error envelope; the
source has no `finally` for the connection, so `close` is attempted only
after both queries succeed. -/
def handle_printer_status_request (ip? : Option (List Char)) (dev : StatusDevice) :
    StatusResponse × List Event :=
  let printer_ip := ip?.getD defaultIp
  match dev.connect with
  | Except.error e => (StatusResponse.err e zeroTape, [Event.connect printer_ip])
  | Except.ok _ =>
    match dev.getConfiguration with
    | Except.error e =>
      (StatusResponse.err e zeroTape, [Event.connect printer_ip, Event.getConfiguration])
    | Except.ok config =>
      match dev.getStatus with
      | Except.error e =>
        (StatusResponse.err e zeroTape,
         [Event.connect printer_ip, Event.getConfiguration, Event.getStatus])
      | Except.ok status =>
        match dev.close with
        | Except.error e =>
          (StatusResponse.err e zeroTape,
           [Event.connect printer_ip, Event.getConfiguration, Event.getStatus, Event.close])
        | Except.ok _ =>
          (StatusResponse.ok config.model config.serial status.print_state
             status.print_job_stage status.print_job_error (computeTapeInfo config status),
           [Event.connect printer_ip, Event.getConfiguration, Event.getStatus, Event.close])

/-- The JSON body written by `handle_print_request`. -/
inductive PrintResponse where
  | ok (printerStatus : String)
  | err (msg : String)
  deriving DecidableEq

/-- The `multipart/form-data` content-type marker tested at line 212. -/
def multipartMarker : List Char := "multipart/form-data".toList

/-- The form-field keys read by `handle_print_request`. -/
def ipKey : List Char := "printer_ip".toList

/-- The `mode` form-field key. -/
def modeKey : List Char := "mode".toList

/-- The `cut` form-field key. -/
def cutKey : List Char := "cut".toList

/-- The `image` file-field key. -/
def imageKey : List Char := "image".toList

/-- Lines 205-289, `handle_print_request`.  `tempWrite` is the outcome of
writing the uploaded bytes to the temporary file, `unlink` the outcome of
`os.unlink` in the `finally` block (its failure is swallowed by
`except: pass`, so it is bound but never consulted for the response).
Reading the temporary file back for `print_jpeg` returns the bytes just
written and is folded into the `printJpeg` event.  The `try`/`finally`
spans lines 240-274: once the temporary file exists, `unlink` is
attempted on every exit path of the inner block; the connection has no
such protection and is closed only after `print_jpeg` succeeds. -/
def handle_print_request (content_type : List Char) (body : List Byte)
    (tempWrite unlink : DevResult Unit) (dev : PrintDevice) :
    PrintResponse × List Event :=
  if ¬ List.isPrefixOf multipartMarker content_type then
    (PrintResponse.err "Expected multipart/form-data", [])
  else
    match parse_multipart_form_data content_type body with
    | Except.error e => (PrintResponse.err e, [])
    | Except.ok form =>
      let printer_ip := (pyDictGet form.formData ipKey).getD defaultIp
      let mode := (pyDictGet form.formData modeKey).getD "vivid".toList
      let cut := (pyDictGet form.formData cutKey).getD "full".toList
      match pyDictGet form.files imageKey with
      | none => (PrintResponse.err "No image file provided", [])
      | some img =>
        match tempWrite with
        | Except.error e => (PrintResponse.err e, [Event.tempWrite img.content])
        | Except.ok _ =>
          let inner : PrintResponse × List Event :=
            match dev.connect with
            | Except.error e => (PrintResponse.err e, [Event.connect printer_ip])
            | Except.ok _ =>
              match dev.getStatus with
              | Except.error e =>
                (PrintResponse.err e, [Event.connect printer_ip, Event.getStatus])
              | Except.ok status =>
                match dev.printJpeg with
                | Except.error e =>
                  (PrintResponse.err e,
                   [Event.connect printer_ip, Event.getStatus,
                    Event.printJpeg img.content mode cut])
                | Except.ok _ =>
                  match dev.close with
                  | Except.error e =>
                    (PrintResponse.err e,
                     [Event.connect printer_ip, Event.getStatus,
                      Event.printJpeg img.content mode cut, Event.close])
                  | Except.ok _ =>
                    (PrintResponse.ok status.print_state,
                     [Event.connect printer_ip, Event.getStatus,
                      Event.printJpeg img.content mode cut, Event.close])
          let _cleanup := unlink
          (inner.1, Event.tempWrite img.content :: inner.2 ++ [Event.unlink])

/-- The path condition under which `handle_print_request` reaches the
temporary-file write: multipart content type, successful multipart parse,
and an `image` entry in the decoded files. -/
def reachesTempWrite (content_type : List Char) (body : List Byte) : Bool :=
  List.isPrefixOf multipartMarker content_type &&
    match parse_multipart_form_data content_type body with
    | Except.ok form => (pyDictGet form.files imageKey).isSome
    | Except.error _ => false

/-- Two dashes, used to assemble concrete multipart bodies. -/
def dd : List Char := ['-', '-']

/-- A concrete multipart content type with boundary `B`. -/
def ctB : List Char := "multipart/form-data; boundary=B".toList

/-- A concrete body whose one part is a form field `f` whose payload ends
in a CRLF of its own, followed by the framing CRLF. -/
def bodyTrailing : List Byte :=
  asciiBytes (dd ++ "B\r\nContent-Disposition: form-data; name=\"f\"\r\n\r\ndata\r\n\r\n".toList
    ++ dd ++ "B".toList ++ dd ++ "\r\n".toList)

/-- A concrete body whose one part carries `name="x"` and an EMPTY
`filename=""` attribute. -/
def bodyEmptyFn : List Byte :=
  asciiBytes (dd ++ "B\r\nContent-Disposition: form-data; name=\"x\"; filename=\"\"\r\n\r\nhello\r\n".toList
    ++ dd ++ "B".toList ++ dd ++ "\r\n".toList)

/-- A concrete body whose one part carries ONLY a `filename="a.jpg"`
attribute and no `name` attribute. -/
def bodyFnOnly : List Byte :=
  asciiBytes (dd ++ "B\r\nContent-Disposition: form-data; filename=\"a.jpg\"\r\n\r\nhello\r\n".toList
    ++ dd ++ "B".toList ++ dd ++ "\r\n".toList)

/-- A concrete body whose one part is a file field named `image`. -/
def bodyFile : List Byte :=
  asciiBytes (dd ++ "B\r\nContent-Disposition: form-data; name=\"image\"; filename=\"a.jpg\"\r\n\r\nXYZ\r\n".toList
    ++ dd ++ "B".toList ++ dd ++ "\r\n".toList)

/-- Header block of a part carrying both a name and a nonempty filename. -/
def hdFileEx : List Byte :=
  asciiBytes "\r\nContent-Disposition: form-data; name=\"x\"; filename=\"a.jpg\"".toList

/-- Content block used with `hdFileEx`. -/
def contentFileEx : List Byte := asciiBytes "hello\r\n".toList

/-- A raw part assembled from `hdFileEx` and `contentFileEx`. -/
def partFileEx : List Byte := hdFileEx ++ crlfcrlf ++ contentFileEx

/-- Header block of a part with no Content-Disposition header at all. -/
def hdNoName : List Byte := asciiBytes "\r\nContent-Type: text/plain".toList

/-- Content block used with `hdNoName`. -/
def contentNoName : List Byte := asciiBytes "hello\r\n".toList

/-- A raw part whose headers yield no name. -/
def partNoName : List Byte := hdNoName ++ crlfcrlf ++ contentNoName

/-- A configuration with one-inch tape width and ten-inch initial length. -/
def cfgStd : Configuration := ⟨"", "", 1, 10⟩

/-- A configuration with a NEGATIVE tape width (nonzero, hence truthy in
the Python guard). -/
def cfgNegWidth : Configuration := ⟨"", "", -1, 10⟩

/-- A configuration with zero tape width. -/
def cfgZeroWidth : Configuration := ⟨"", "", 0, 10⟩

/-- A status with five inches of tape remaining. -/
def stNormal : PStatus := ⟨"", "", "", 5⟩

/-- A status with a NEGATIVE remaining length distinct from the sentinel. -/
def stNeg : PStatus := ⟨"", "", "", -1/2⟩

/-- A status whose remaining length (20 in) exceeds the initial length. -/
def stOver : PStatus := ⟨"", "", "", 20⟩

/-- A status-request environment where the session opens but the
configuration query fails. -/
def devCfgFail : StatusDevice :=
  ⟨Except.ok (), Except.error "boom", Except.ok stNormal, Except.ok ()⟩

/-- A status-request environment where every device call succeeds. -/
def devAllOk : StatusDevice :=
  ⟨Except.ok (), Except.ok cfgStd, Except.ok stNormal, Except.ok ()⟩

/-- A print-request environment where every device call succeeds. -/
def devPrintOk : PrintDevice :=
  ⟨Except.ok (), Except.ok stNormal, Except.ok (), Except.ok ()⟩

theorem pyInt_eq_floor_of_nonneg {q : ℚ} (h : 0 ≤ q) : pyInt q = ⌊q⌋ := by
  simp [pyInt, h]

/-- C10: on width 1.0 in, initial 10.0 in, remaining 5.0 in, the
projection yields 25 mm, 254 mm, 127 mm and 50 percent, each millimeter
value the inch value times 25.4 truncated toward zero. -/
theorem projection_concrete_inch_to_mm_example :
    computeTapeInfo cfgStd stNormal = ⟨true, 25, 254, 127, 50⟩ := by
  norm_num [computeTapeInfo, pyInt, cfgStd, stNormal]

/-- C3 counterexample: a configuration with tape width -1.0 (nonzero,
hence truthy) makes the code report the tape present although the
claimed formula `tapeWidthInches > 0` is false. -/
theorem present_true_despite_negative_width :
    (computeTapeInfo cfgNegWidth stNormal).present = true ∧
      ¬ 0 < cfgNegWidth.tape_width := by
  constructor
  · norm_num [computeTapeInfo, pyInt, cfgNegWidth, stNormal]
  · norm_num [cfgNegWidth]

/-- C3 amended: `present` is true exactly when the width and initial
length are nonzero (Python truthiness, not positivity) and the remaining
length differs from the sentinel -1.0; when `present` is false every
numeric field is zero. -/
theorem present_iff_nonzero_fields_and_no_sentinel :
    ∀ (config : Configuration) (status : PStatus),
      ((computeTapeInfo config status).present = true ↔
        config.tape_width ≠ 0 ∧ config.tape_length_initial ≠ 0 ∧
          status.tape_length_remaining ≠ -1) ∧
      ((computeTapeInfo config status).present = false →
        computeTapeInfo config status = zeroTape) := by
  intro config status
  by_cases h : config.tape_width ≠ 0 ∧ config.tape_length_initial ≠ 0 ∧
      status.tape_length_remaining ≠ -1
  · simp [computeTapeInfo, h, zeroTape]
  · simp [computeTapeInfo, h, zeroTape]

theorem present_iff_witness :
    computeTapeInfo cfgZeroWidth stNormal = zeroTape :=
  (present_iff_nonzero_fields_and_no_sentinel cfgZeroWidth stNormal).2
    (by norm_num [computeTapeInfo, cfgZeroWidth])

/-- C4 counterexample: with remaining -0.5 in (so remainingMm = -12,
totalMm = 254) the code computes percentage -4 (truncation toward zero)
while the claimed floor is -5. -/
theorem percentage_truncates_toward_zero_not_floor :
    (computeTapeInfo cfgStd stNeg).percentage = -4 ∧
      ⌊((computeTapeInfo cfgStd stNeg).remaining_mm : ℚ) /
          ((computeTapeInfo cfgStd stNeg).total_mm : ℚ) * 100⌋ = -5 := by
  constructor
  · norm_num [computeTapeInfo, pyInt, cfgStd, stNeg]
  · norm_num [computeTapeInfo, pyInt, cfgStd, stNeg]

/-- C4 amended: the percentage is the toward-zero truncation of
remainingMm / totalMm * 100 when totalMm > 0 and 0 otherwise (so no
division by zero is ever performed), and it coincides with the claimed
floor whenever remainingMm is nonnegative. -/
theorem percentage_guarded_truncated_ratio :
    ∀ (config : Configuration) (status : PStatus),
      ((computeTapeInfo config status).percentage =
        if 0 < (computeTapeInfo config status).total_mm then
          pyInt (((computeTapeInfo config status).remaining_mm : ℚ) /
            ((computeTapeInfo config status).total_mm : ℚ) * 100)
        else 0) ∧
      (0 ≤ (computeTapeInfo config status).remaining_mm →
        0 < (computeTapeInfo config status).total_mm →
        (computeTapeInfo config status).percentage =
          ⌊((computeTapeInfo config status).remaining_mm : ℚ) /
            ((computeTapeInfo config status).total_mm : ℚ) * 100⌋) := by
  intro config status
  have main : (computeTapeInfo config status).percentage =
      if 0 < (computeTapeInfo config status).total_mm then
        pyInt (((computeTapeInfo config status).remaining_mm : ℚ) /
          ((computeTapeInfo config status).total_mm : ℚ) * 100)
      else 0 := by
    by_cases h : config.tape_width ≠ 0 ∧ config.tape_length_initial ≠ 0 ∧
        status.tape_length_remaining ≠ -1
    · simp [computeTapeInfo, h]
    · simp [computeTapeInfo, h]
  refine ⟨main, fun hr ht => ?_⟩
  rw [main, if_pos ht]
  apply pyInt_eq_floor_of_nonneg
  have h100 : (0 : ℚ) ≤ 100 := by norm_num
  have hrQ : (0 : ℚ) ≤ ((computeTapeInfo config status).remaining_mm : ℚ) := by
    exact_mod_cast hr
  have htQ : (0 : ℚ) < ((computeTapeInfo config status).total_mm : ℚ) := by
    exact_mod_cast ht
  exact mul_nonneg (div_nonneg hrQ htQ.le) h100

theorem percentage_ratio_witness :
    (computeTapeInfo cfgStd stNormal).percentage =
      ⌊((computeTapeInfo cfgStd stNormal).remaining_mm : ℚ) /
          ((computeTapeInfo cfgStd stNormal).total_mm : ℚ) * 100⌋ :=
  (percentage_guarded_truncated_ratio cfgStd stNormal).2
    (by norm_num [computeTapeInfo, pyInt, cfgStd, stNormal])
    (by norm_num [computeTapeInfo, pyInt, cfgStd, stNormal])

/-- C8 counterexample: remaining 20 in against initial 10 in gives
percentage 200, outside the claimed 0-100 range. -/
theorem percentage_two_hundred_when_remaining_double :
    (computeTapeInfo cfgStd stOver).percentage = 200 ∧
      100 < (computeTapeInfo cfgStd stOver).percentage := by
  have h : (computeTapeInfo cfgStd stOver).percentage = 200 := by
    norm_num [computeTapeInfo, pyInt, cfgStd, stOver]
  exact ⟨h, by rw [h]; norm_num⟩

/-- C8 amended: the percentage lies in 0..100 whenever the projected
remaining length is between 0 and the projected total length; outside
that band (remaining negative, or exceeding the initial length) it can
leave the range. -/
theorem percentage_bounded_when_remaining_within_total :
    ∀ (config : Configuration) (status : PStatus),
      0 ≤ (computeTapeInfo config status).remaining_mm →
      (computeTapeInfo config status).remaining_mm ≤
        (computeTapeInfo config status).total_mm →
      0 ≤ (computeTapeInfo config status).percentage ∧
        (computeTapeInfo config status).percentage ≤ 100 := by
  intro config status hr hrt
  have main := (percentage_guarded_truncated_ratio config status).1
  by_cases ht : 0 < (computeTapeInfo config status).total_mm
  · rw [main, if_pos ht]
    have hrQ : (0 : ℚ) ≤ ((computeTapeInfo config status).remaining_mm : ℚ) := by
      exact_mod_cast hr
    have htQ : (0 : ℚ) < ((computeTapeInfo config status).total_mm : ℚ) := by
      exact_mod_cast ht
    have hrtQ : ((computeTapeInfo config status).remaining_mm : ℚ) ≤
        ((computeTapeInfo config status).total_mm : ℚ) := by
      exact_mod_cast hrt
    have hq : (0 : ℚ) ≤ ((computeTapeInfo config status).remaining_mm : ℚ) /
        ((computeTapeInfo config status).total_mm : ℚ) * 100 :=
      mul_nonneg (div_nonneg hrQ htQ.le) (by norm_num)
    have hq100 : ((computeTapeInfo config status).remaining_mm : ℚ) /
        ((computeTapeInfo config status).total_mm : ℚ) * 100 ≤ 100 := by
      have h1 : ((computeTapeInfo config status).remaining_mm : ℚ) /
          ((computeTapeInfo config status).total_mm : ℚ) ≤ 1 :=
        (div_le_one htQ).mpr hrtQ
      calc ((computeTapeInfo config status).remaining_mm : ℚ) /
          ((computeTapeInfo config status).total_mm : ℚ) * 100 ≤ 1 * 100 := by
            exact mul_le_mul_of_nonneg_right h1 (by norm_num)
        _ = 100 := by norm_num
    rw [pyInt_eq_floor_of_nonneg hq]
    constructor
    · exact Int.floor_nonneg.mpr hq
    · have := Int.floor_le_floor hq100
      simpa using this
  · rw [main, if_neg ht]
    norm_num

theorem percentage_bounded_witness :
    0 ≤ (computeTapeInfo cfgStd stNormal).percentage ∧
      (computeTapeInfo cfgStd stNormal).percentage ≤ 100 :=
  percentage_bounded_when_remaining_within_total cfgStd stNormal
    (by norm_num [computeTapeInfo, pyInt, cfgStd, stNormal])
    (by norm_num [computeTapeInfo, pyInt, cfgStd, stNormal])

theorem pySplitAux_ne_nil [BEq α] (sep : List α) (fuel : Nat) (xs : List α) :
    pySplitAux sep fuel xs ≠ [] := by
  cases fuel with
  | zero => simp [pySplitAux]
  | succ n =>
    cases h : findSub sep xs with
    | none => simp [pySplitAux, h]
    | some i => simp [pySplitAux, h]

/-- C9: `parse_multipart_form_data` returns the missing-boundary error
exactly when `'boundary='` does not occur in the content type; for every
content type containing it and every body it returns a decoded form and
never any error. -/
theorem decode_fails_iff_boundary_missing :
    ∀ (content_type : List Char) (body : List Byte),
      ((∃ d, parse_multipart_form_data content_type body = Except.ok d) ↔
        strContains boundaryMarker content_type = true) ∧
      (strContains boundaryMarker content_type = false →
        parse_multipart_form_data content_type body =
          Except.error "No boundary found in content type") := by
  intro content_type body
  cases hc : strContains boundaryMarker content_type with
  | false =>
    constructor
    · constructor
      · intro ⟨d, hd⟩
        rw [parse_multipart_form_data] at hd
        simp [hc] at hd
      · intro h
        simp at h
    · intro _
      rw [parse_multipart_form_data]
      simp [hc]
  | true =>
    have hidx : ∃ seg, listIdx (pySplit boundaryMarker content_type) 1 = some seg := by
      have hfind : ∃ i, findSub boundaryMarker content_type = some i := by
        rcases h : findSub boundaryMarker content_type with _ | i
        · rw [strContains, h] at hc
          simp at hc
        · exact ⟨i, rfl⟩
      rcases hfind with ⟨i, hi⟩
      rw [pySplit]
      cases hlen : content_type.length + 1 with
      | zero => omega
      | succ n =>
        rw [pySplitAux, hi]
        rcases htail : pySplitAux boundaryMarker n
            (content_type.drop (i + boundaryMarker.length)) with _ | ⟨seg, rest⟩
        · exact absurd htail (pySplitAux_ne_nil _ _ _)
        · exact ⟨seg, by simp [listIdx, htail]⟩
    rcases hidx with ⟨seg, hseg⟩
    constructor
    · constructor
      · intro _
        rfl
      · intro _
        refine ⟨decodeFormWith (normBoundary seg) body, ?_⟩
        rw [parse_multipart_form_data]
        simp [hc, hseg]
    · intro h
      simp at h

theorem decode_fails_witness :
    parse_multipart_form_data "text/plain".toList [] =
      Except.error "No boundary found in content type" :=
  (decode_fails_iff_boundary_missing "text/plain".toList []).2 (by decide)

/-- C5 (code bug): the part's content block is `b'data\r\n\r\n'` — a
payload ending in CRLF plus the framing CRLF.  Stripping exactly one
framing CRLF would record `data\r\n`, but `rstrip(b'\r\n')` removes every
trailing CR and LF byte and the recorded value is `data`. -/
theorem all_trailing_crlf_bytes_stripped :
    parse_multipart_form_data ctB bodyTrailing =
      Except.ok ⟨[("f".toList, "data".toList)], []⟩ := by
  decide

/-- C6 counterexample: a part carrying `name="x"` and an EMPTY filename
attribute `filename=""` is recorded as a FORM FIELD (the Python
truthiness test `if filename:` is false on the empty string), not as a
file part as the claim requires. -/
theorem empty_filename_decodes_to_form_field :
    parse_multipart_form_data ctB bodyEmptyFn =
      Except.ok ⟨[("x".toList, "hello".toList)], []⟩ := by
  decide

/-- C6 amended: a part with a resolvable nonempty name is recorded as a
file part exactly when its extracted filename is NONEMPTY; an empty
filename attribute yields an ordinary form field. -/
theorem file_part_iff_nonempty_filename :
    ∀ (acc : DecodedForm) (part hd content : List Byte) (name fn : List Char),
      part.all isPySpaceByte = false →
      splitHeadersContent part = some (hd, content) →
      extractNameFilename (utf8Ignore hd) = (some name, some fn) →
      name ≠ [] →
      (fn ≠ [] →
        processPart acc part =
          { acc with files := pyDictSet acc.files name ⟨fn, pyRstripCRLF content⟩ }) ∧
      (fn = [] →
        processPart acc part =
          { acc with formData :=
              pyDictSet acc.formData name (utf8Ignore (pyRstripCRLF content)) }) := by
  intro acc part hd content name fn hws hsplit hext hname
  constructor
  · intro hfn
    simp [processPart, hws, hsplit, hext, hname, hfn]
  · intro hfn
    simp [processPart, hws, hsplit, hext, hname, hfn]

theorem file_part_witness :
    processPart ⟨[], []⟩ partFileEx =
      ⟨[], [("x".toList, ⟨"a.jpg".toList, asciiBytes "hello".toList⟩)]⟩ := by
  have h := (file_part_iff_nonempty_filename ⟨[], []⟩ partFileEx hdFileEx contentFileEx
    "x".toList "a.jpg".toList (by decide) (by decide) (by decide) (by decide)).1 (by decide)
  rw [h]
  decide

/-- C7 counterexample: a part whose Content-Disposition carries ONLY a
filename attribute is NOT dropped: the literal search for `name="`
matches inside `filename="`, so the part is recorded in the files mapping
keyed by the filename value. -/
theorem filename_only_part_recorded_not_dropped :
    parse_multipart_form_data ctB bodyFnOnly =
      Except.ok ⟨[], [("a.jpg".toList, ⟨"a.jpg".toList, asciiBytes "hello".toList⟩)]⟩ := by
  decide

/-- C7 amended: a part whose header scan resolves no name (the extracted
name is absent or empty) contributes to neither mapping; but a part with
only a filename attribute DOES resolve a name through the `name="`
substring of `filename="`, so it is not covered by this case. -/
theorem part_without_resolvable_name_dropped :
    ∀ (acc : DecodedForm) (part hd content : List Byte),
      splitHeadersContent part = some (hd, content) →
      ((extractNameFilename (utf8Ignore hd)).1 = none ∨
        (extractNameFilename (utf8Ignore hd)).1 = some []) →
      processPart acc part = acc := by
  intro acc part hd content hsplit hname
  by_cases hws : part.all isPySpaceByte
  · simp [processPart, hws]
  · rcases hext : extractNameFilename (utf8Ignore hd) with ⟨n, f⟩
    rcases hname with h | h <;> rw [hext] at h <;> simp at h
    · simp [processPart, hws, hsplit, hext, h]
    · simp [processPart, hws, hsplit, hext, h]

theorem part_dropped_witness :
    processPart ⟨[], []⟩ partNoName = ⟨[], []⟩ :=
  part_without_resolvable_name_dropped ⟨[], []⟩ partNoName hdNoName contentNoName
    (by decide) (Or.inl (by decide))

/-- C1 counterexample: the session opens (`connect` succeeds) and the
configuration query fails; the handler returns the error envelope without
ever attempting `close`. -/
theorem open_session_error_path_skips_close :
    devOk devCfgFail.connect = true ∧
      (handle_printer_status_request none devCfgFail).1.isErr = true ∧
      Event.close ∉ (handle_printer_status_request none devCfgFail).2 := by
  decide

/-- C1 amended: in both handlers `close` is attempted exactly when every
preceding device step succeeded; after a failure of the configuration
query, the status query or the print submission the error response is
returned without attempting closure. -/
theorem close_attempted_iff_all_device_steps_ok :
    (∀ (ip? : Option (List Char)) (dev : StatusDevice),
      Event.close ∈ (handle_printer_status_request ip? dev).2 ↔
        devOk dev.connect = true ∧ devOk dev.getConfiguration = true ∧
          devOk dev.getStatus = true) ∧
    (∀ (content_type : List Char) (body : List Byte)
        (tempWrite unlink : DevResult Unit) (dev : PrintDevice),
      Event.close ∈ (handle_print_request content_type body tempWrite unlink dev).2 ↔
        reachesTempWrite content_type body = true ∧ devOk tempWrite = true ∧
          devOk dev.connect = true ∧ devOk dev.getStatus = true ∧
          devOk dev.printJpeg = true) := by
  constructor
  · intro ip? dev
    obtain ⟨c, gc, gs, cl⟩ := dev
    cases c <;> cases gc <;> cases gs <;> cases cl <;>
      simp [handle_printer_status_request, devOk]
  · intro content_type body tempWrite unlink dev
    rw [handle_print_request, reachesTempWrite]
    by_cases hm : List.isPrefixOf multipartMarker content_type
    · rw [if_neg (by simp [hm]), hm]
      cases hp : parse_multipart_form_data content_type body with
      | error e => simp
      | ok form =>
        cases hi : pyDictGet form.files imageKey with
        | none => simp [hi]
        | some img =>
          obtain ⟨c, gs, pj, cl⟩ := dev
          cases tempWrite <;> cases c <;> cases gs <;> cases pj <;> cases cl <;>
            simp [hi, devOk]
    · rw [if_pos (by simp [hm])]
      simp [hm]

theorem close_attempted_witness :
    Event.close ∈ (handle_printer_status_request none devAllOk).2 :=
  (close_attempted_iff_all_device_steps_ok.1 none devAllOk).mpr ⟨rfl, rfl, rfl⟩

/-- C2: once the request reaches the temporary-file write and the write
succeeds, `os.unlink` is attempted on every exit path of the inner
`try`/`finally` — whatever the outcomes of connect, the status query,
`print_jpeg` and `close` — and the outcome of the unlink never changes
the response. -/
theorem temp_file_unlinked_on_every_exit_path :
    ∀ (content_type : List Char) (body : List Byte) (unlink : DevResult Unit)
      (dev : PrintDevice),
      reachesTempWrite content_type body = true →
      Event.unlink ∈
          (handle_print_request content_type body (Except.ok ()) unlink dev).2 ∧
        (handle_print_request content_type body (Except.ok ()) unlink dev).1 =
          (handle_print_request content_type body (Except.ok ())
            (Except.ok ()) dev).1 := by
  intro content_type body unlink dev hreach
  rw [reachesTempWrite] at hreach
  have hm : List.isPrefixOf multipartMarker content_type := by
    cases h : List.isPrefixOf multipartMarker content_type
    · rw [h] at hreach
      simp at hreach
    · rfl
  rw [hm] at hreach
  simp only [Bool.true_and] at hreach
  cases hp : parse_multipart_form_data content_type body with
  | error e => rw [hp] at hreach; simp at hreach
  | ok form =>
    rw [hp] at hreach
    have hreach2 : (pyDictGet form.files imageKey).isSome = true := hreach
    cases hi : pyDictGet form.files imageKey with
    | none => rw [hi] at hreach2; simp at hreach2
    | some img =>
      constructor
      · rw [handle_print_request, if_neg (by simp [hm]), hp]
        simp [hi]
      · rfl

theorem temp_file_unlinked_witness :
    Event.unlink ∈
        (handle_print_request ctB bodyFile (Except.ok ())
          (Except.error "unlink failed") devPrintOk).2 ∧
      (handle_print_request ctB bodyFile (Except.ok ())
          (Except.error "unlink failed") devPrintOk).1 =
        (handle_print_request ctB bodyFile (Except.ok ())
          (Except.ok ()) devPrintOk).1 :=
  temp_file_unlinked_on_every_exit_path ctB bodyFile
    (Except.error "unlink failed") devPrintOk (by decide)
